import Mathlib

/-!
Verification of the grant-tracker provisioning scripts.

This file shallowly embeds the two repository scripts,
`poc/create_spreadsheet.py` and `poc/sheets_poc.py`, as pure Lean
definitions.  The scripts are straight-line orchestrations of remote
spreadsheet-API calls; we embed

* the literal schema configuration (column names, status enumeration,
  default tags),
* the request bodies each procedure constructs (value ranges, data
  validation rules),
* the control flow of each `main` as an explicit trace of steps /
  remote calls, parameterised by the external inputs (credential file
  presence, sheet metadata returned by the service, values read back,
  exceptions raised by individual calls),
* the console output of the exploration loops and of the share phase.

External effects (network, filesystem, stdin) are inputs to the
embedded functions; each function returns the requests it would issue
and/or the lines it would print.
-/

namespace GrantTracker

/-! ## Schema configuration (create_spreadsheet.py, lines 37-75) -/

/-- `GRANTS_COLUMNS` from `create_spreadsheet.py`: the header row of the
Grants sheet. -/
def GRANTS_COLUMNS : List String :=
  ["ID", "Title", "Organization", "Status", "Amount", "Primary_Contact",
   "Other_Contacts", "Year", "Beneficiary", "Tags", "Cat_A_Percent",
   "Cat_B_Percent", "Cat_C_Percent", "Cat_D_Percent"]

/-- `STATUS_VALUES` from `create_spreadsheet.py`: the status enumeration
written to the Status sheet. -/
def STATUS_VALUES : List String :=
  ["Initial Contact", "Meeting", "Proposal Development",
   "Stakeholder Review", "Approved", "Notification", "Signing",
   "Disbursement", "Active", "Finished", "Rejected", "Deferred"]

/-- `DEFAULT_TAGS` from `create_spreadsheet.py`: the sample tags written
to the Tags sheet. -/
def DEFAULT_TAGS : List String :=
  ["Python", "Rust", "Security", "Infrastructure"]

/-! ## populate_sheets (create_spreadsheet.py, lines 115-142) -/

/-- One entry of the `data` list passed to
`spreadsheets().values().batchUpdate`: a target range and a rectangle of
cell values. -/
structure ValueRange where
  range : String
  values : List (List String)
deriving DecidableEq, Repr

/-- The `data` list that `populate_sheets` builds and sends in its single
`batchUpdate` call (with `valueInputOption = "RAW"`). -/
def populate_sheets_data : List ValueRange :=
  [⟨"Grants!A1", [GRANTS_COLUMNS]⟩,
   ⟨"Status!A1", [["Status"]] ++ STATUS_VALUES.map (fun s => [s])⟩,
   ⟨"Tags!A1", [["Name"]] ++ DEFAULT_TAGS.map (fun t => [t])⟩]

/-- Column A of a written rectangle: the first cell of each row (empty
string when a row is empty). -/
def columnA (vr : ValueRange) : List String :=
  vr.values.map (fun r => r.headD "")

/-! ## add_data_validation (create_spreadsheet.py, lines 227-286) -/

/-- The per-sheet properties the script reads out of the metadata the
service returns for the created spreadsheet (`sheet["properties"]`). -/
structure SheetProps where
  title : String
  sheetId : Nat
deriving DecidableEq, Repr

/-- A `range` object of a `setDataValidation` request (unused bounds are
absent, mirroring the keys the script omits). -/
structure GridRange where
  sheetId : Nat
  startRowIndex : Option Nat := none
  endRowIndex : Option Nat := none
  startColumnIndex : Option Nat := none
  endColumnIndex : Option Nat := none
deriving DecidableEq, Repr

/-- The `rule` object of a `setDataValidation` request: a condition type,
its `userEnteredValue` list, and the `showCustomUi` / `strict` flags. -/
structure ValidationRule where
  condType : String
  condValues : List String
  showCustomUi : Bool
  strict : Bool
deriving DecidableEq, Repr

/-- One `setDataValidation` request of the batchUpdate body. -/
structure SetDataValidationRequest where
  range : GridRange
  rule : ValidationRule
deriving DecidableEq, Repr

/-- The Status-column request `add_data_validation` constructs: column D
(startColumnIndex 3), rows from index 1, dropdown from `Status!$A$2:$A`. -/
def statusValidationRequest (gid : Nat) : SetDataValidationRequest :=
  ⟨{ sheetId := gid, startRowIndex := some 1,
     startColumnIndex := some 3, endColumnIndex := some 4 },
   ⟨"ONE_OF_RANGE", ["=Status!$A$2:$A"], true, false⟩⟩

/-- The Tags-column request `add_data_validation` constructs: column J
(startColumnIndex 9), rows from index 1, dropdown from `Tags!$A$2:$A`. -/
def tagsValidationRequest (gid : Nat) : SetDataValidationRequest :=
  ⟨{ sheetId := gid, startRowIndex := some 1,
     startColumnIndex := some 9, endColumnIndex := some 10 },
   ⟨"ONE_OF_RANGE", ["=Tags!$A$2:$A"], true, false⟩⟩

/-- The lookup loop of `add_data_validation`: the `sheetId` of the first
sheet titled "Grants", if any. -/
def findGrantsId (sheets : List SheetProps) : Option Nat :=
  (sheets.find? (fun s => s.title == "Grants")).map SheetProps.sheetId

/-- What a call to `add_data_validation` does: the lines it prints and the
`setDataValidation` requests of the batchUpdate it issues (empty when it
returns early without issuing one). -/
structure ValidationOutcome where
  printed : List String
  requests : List SetDataValidationRequest
deriving DecidableEq, Repr

/-- `add_data_validation`, as a function of the sheet metadata.  The
source guards with `if not grants_id:`, so a `sheetId` of `0` is treated
the same as an absent Grants sheet (Python falsiness of `0`). -/
def add_data_validation (sheets : List SheetProps) : ValidationOutcome :=
  match findGrantsId sheets with
  | none => ⟨["Warning: Could not find Grants sheet for validation"], []⟩
  | some gid =>
    if gid = 0 then
      ⟨["Warning: Could not find Grants sheet for validation"], []⟩
    else
      ⟨["Added data validation (dropdowns)"],
       [statusValidationRequest gid, tagsValidationRequest gid]⟩

/-! ## Credential acquisition and process exit -/

/-- A `sys.exit` observed as data: the exit status and the lines printed
before exiting. -/
structure ExitMsg where
  code : Nat
  msgs : List String
deriving DecidableEq, Repr

/-- A single-quote character as a string (used inside literal messages
and A1 ranges). -/
def sq : String := String.singleton (Char.ofNat 39)

/-- The module-level import guard of `create_spreadsheet.py` (lines
19-25): a missing package exits 1 after printing the install hint. -/
def create_import_check (packagesAvailable : Bool) : Except ExitMsg Unit :=
  if packagesAvailable then .ok ()
  else .error ⟨1, ["Missing required packages. Run:",
                   "  pip install -r requirements.txt"]⟩

/-- The module-level import guard of `sheets_poc.py` (lines 25-35). -/
def poc_import_check (packagesAvailable : Bool) : Except ExitMsg Unit :=
  if packagesAvailable then .ok ()
  else .error ⟨1, ["Missing required packages. Install with:",
                   "  pip install google-auth google-auth-oauthlib google-api-python-client python-dotenv"]⟩

/-- `get_credentials` of `create_spreadsheet.py` (lines 78-90), as a
function of whether the keys directory exists and of the JSON files it
contains: no JSON file means exit 1; otherwise the first file is used. -/
def get_credentials_create (keysDir : String) (dirExists : Bool)
    (jsonFiles : List String) : Except ExitMsg String :=
  match (if dirExists then jsonFiles else []) with
  | [] => .error ⟨1, ["Error: No service account JSON file found in " ++ keysDir]⟩
  | f :: _ => .ok f

/-- `get_service_account_credentials` of `sheets_poc.py` (lines 65-83):
an absent service-account file means exit 1 after the setup hints. -/
def get_service_account_credentials (filePath : String)
    (fileExists : Bool) : Except ExitMsg Unit :=
  if fileExists then .ok ()
  else .error ⟨1,
    ["Error: Service account file not found: " ++ filePath,
     "\nTo set up:",
     "  1. Go to GCP Console > IAM & Admin > Service Accounts",
     "  2. Create a service account (or use existing)",
     "  3. Create a JSON key and download it",
     "  4. Save it as " ++ sq ++ "service-account.json" ++ sq ++ " in this directory",
     "  5. Share your spreadsheet with the service account email",
     "\nOr use --oauth flag for user authentication"]⟩

/-- The state of a saved OAuth token file, as the script inspects it. -/
structure TokenState where
  valid : Bool
  expired : Bool
  hasRefreshToken : Bool
deriving DecidableEq, Repr

/-- Python falsiness of an environment variable read via `os.getenv`:
unset (`None`) or the empty string. -/
def strFalsy : Option String → Bool
  | none => true
  | some s => s == ""

/-- The message printed when CLIENT_ID / CLIENT_SECRET are missing. -/
def oauthEnvErrorMsgs : List String :=
  ["Error: CLIENT_ID and CLIENT_SECRET must be set in .env file",
   "Create a .env file with:",
   "  CLIENT_ID=your-client-id",
   "  CLIENT_SECRET=your-client-secret"]

/-- `get_oauth_credentials` of `sheets_poc.py` (lines 86-125), as a
function of the saved token (if any) and of the CLIENT_ID /
CLIENT_SECRET environment variables.  The refresh path and the browser
flow both succeed; only missing env vars exit. -/
def get_oauth_credentials (tok : Option TokenState)
    (clientId clientSecret : Option String) : Except ExitMsg Unit :=
  if (match tok with | none => true | some t => !t.valid) then
    if (match tok with | none => false
                       | some t => t.expired && t.hasRefreshToken) then
      .ok ()
    else if strFalsy clientId || strFalsy clientSecret then
      .error ⟨1, oauthEnvErrorMsgs⟩
    else
      .ok ()
  else
    .ok ()

/-! ## main of create_spreadsheet.py (lines 299-333) -/

/-- Python's `str.strip()`: drop leading and trailing whitespace. -/
def pyStrip (s : String) : String :=
  String.mk
    (((s.data.dropWhile Char.isWhitespace).reverse.dropWhile
      Char.isWhitespace).reverse)

/-- One step of the create script's `main`, in source order. -/
inductive CreateStep where
  | getCredentials
  | buildSheetsService
  | buildDriveService
  | createSpreadsheet
  | populateSheets
  | formatSheets
  | addDataValidation
  | shareWithUser (email : String)
deriving DecidableEq, Repr

/-- The sequence of steps the create script's `main` performs, given the
result of credential acquisition and the raw email typed at the share
prompt.  On a credential failure the process exits before building any
client; `share_with_user` runs only for a non-empty stripped email. -/
def create_main_steps (creds : Except ExitMsg String)
    (rawEmail : String) : List CreateStep :=
  CreateStep.getCredentials ::
  match creds with
  | .error _ => []
  | .ok _ =>
    [CreateStep.buildSheetsService, CreateStep.buildDriveService,
     CreateStep.createSpreadsheet, CreateStep.populateSheets,
     CreateStep.formatSheets, CreateStep.addDataValidation] ++
    (if pyStrip rawEmail = "" then []
     else [CreateStep.shareWithUser (pyStrip rawEmail)])

/-- The lines `main` prints from the share prompt onwards (lines
322-333), given the spreadsheet id, the raw email typed at the prompt,
and the outcome of the share call (an exception is observed as
`.error e` with `e` the rendered exception text). -/
def create_main_epilogue (spreadsheetId rawEmail : String)
    (shareResult : Except String Unit) : List String :=
  "" ::
  (if pyStrip rawEmail = "" then []
   else
     match shareResult with
     | .ok _ => ["Shared with: " ++ pyStrip rawEmail]
     | .error e => ["Could not share: " ++ e]) ++
  ["", "Done! Open the spreadsheet to verify:",
   "https://docs.google.com/spreadsheets/d/" ++ spreadsheetId]

/-! ## main of sheets_poc.py (lines 313-336) -/

/-- One step of the PoC script's `main`, in source order. -/
inductive PocStep where
  | getCredentials
  | buildService
  | exploreMetadata
  | exploreValues
  | exploreTables
  | exploreValidation
  | testWrite
deriving DecidableEq, Repr

/-- The sequence of steps the PoC script's `main` performs, given the
result of credential acquisition: on failure the process exits before
building the service handle. -/
def poc_main_steps (creds : Except ExitMsg Unit) : List PocStep :=
  PocStep.getCredentials ::
  match creds with
  | .error _ => []
  | .ok _ =>
    [PocStep.buildService, PocStep.exploreMetadata, PocStep.exploreValues,
     PocStep.exploreTables, PocStep.exploreValidation, PocStep.testWrite]

/-! ## explore_values_api (sheets_poc.py, lines 162-205) -/

/-- Python `repr` of a simple string (single quotes, no escaping needed
for the strings at hand). -/
def pyStr (s : String) : String := sq ++ s ++ sq

/-- Python `repr` of a list of strings, as printed for the header row. -/
def pyReprList (xs : List String) : String :=
  "[" ++ String.intercalate ", " (xs.map pyStr) ++ "]"

/-- The padding expression `row + [''] * (len(headers) - len(row))` of
line 197: Nat subtraction mirrors Python, where a negative multiplier
yields the empty list. -/
def padRow (headers row : List String) : List String :=
  row ++ List.replicate (headers.length - row.length) ""

/-- Insertion of one key/value pair into a Python dict represented as an
association list in key-insertion order: an existing key is overwritten
in place, a new key is appended. -/
def dictInsert (d : List (String × String)) (kv : String × String) :
    List (String × String) :=
  if d.any (fun p => p.1 == kv.1) then
    d.map (fun p => if p.1 == kv.1 then (p.1, kv.2) else p)
  else d ++ [kv]

/-- `dict(pairs)`: build a Python dict from a pair list, later pairs
overwriting earlier ones with the same key. -/
def dictOfPairs (ps : List (String × String)) : List (String × String) :=
  ps.foldl dictInsert []

/-- `dict(zip(headers, row_padded))` of line 198. -/
def rowDict (headers row : List String) : List (String × String) :=
  dictOfPairs (headers.zip (padRow headers row))

/-- Python `repr` of the row dict, as printed on line 199. -/
def pyReprDict (d : List (String × String)) : String :=
  "\x7b" ++
    String.intercalate ", " (d.map (fun p => pyStr p.1 ++ ": " ++ pyStr p.2)) ++
  "\x7d"

/-- The per-sheet body of `explore_values_api` after a successful read:
the lines printed for the `values` rectangle the service returned. -/
def sheetReport (values : List (List String)) : List String :=
  match values with
  | [] => ["  (empty)"]
  | headers :: rest =>
    ["  Headers: " ++ pyReprList headers,
     "  Rows: " ++ toString rest.length] ++
    ((rest.take 3).enumFrom 1).map
      (fun p => "  Row " ++ toString p.1 ++ ": " ++ pyReprDict (rowDict headers p.2)) ++
    (if values.length > 4 then
       ["  ... and " ++ toString (values.length - 4) ++ " more rows"]
     else [])

/-- The `for sheet_name in sheet_names` loop of `explore_values_api`
(lines 176-205): each item pairs a sheet name with the outcome of its
`values().get` call (an exception observed as `.error`).  The `try` /
`except` sits inside the loop body. -/
def explore_values_loop
    (items : List (String × Except String (List (List String)))) :
    List String :=
  items.flatMap (fun item =>
    ("\n--- " ++ item.1 ++ " ---") ::
    match item.2 with
    | .error e => ["  Error reading sheet: " ++ e]
    | .ok values => sheetReport values)

/-! ## explore_tables_api (sheets_poc.py, lines 208-256) -/

/-- `fields_to_try` from `explore_tables_api`. -/
def fields_to_try : List String :=
  ["tables", "sheets.tables", "sheets.data.rowData",
   "sheets.conditionalFormats", "sheets.filterViews",
   "dataSourceSchedules"]

/-- The parts of one `spreadsheets().get` response that the field-probing
loop inspects: whether the probed field key is present (with its dumped,
truncated value), the per-sheet `tables` dumps when a `sheets` key is
present, and the response's key list. -/
structure TablesGetResp where
  hasField : Bool
  fieldDump : String
  hasSheets : Bool
  sheetTableDumps : List (Option String)
  keys : List String
deriving DecidableEq, Repr

/-- The success branch of the field-probing loop body (lines 232-240). -/
def tablesFieldReport (r : TablesGetResp) : List String :=
  if r.hasField then ["  Found! Value: " ++ r.fieldDump]
  else if r.hasSheets then
    r.sheetTableDumps.filterMap
      (fun o => o.map (fun d => "  Found in sheet! " ++ d))
  else ["  Field not in response. Keys: " ++ pyReprList r.keys]

/-- The `for field in fields_to_try` loop of `explore_tables_api`
(lines 224-242): each item pairs a probed field with the outcome of its
`get` call; the `try` / `except` sits inside the loop body. -/
def explore_tables_loop
    (items : List (String × Except String TablesGetResp)) : List String :=
  items.flatMap (fun item =>
    ("\nTrying field: " ++ item.1) ::
    match item.2 with
    | .error e => ["  Error: " ++ e]
    | .ok r => tablesFieldReport r)

/-! ## Remote calls of the PoC script (sheets_poc.py) -/

/-- A spreadsheet-API request the PoC script can issue. -/
inductive ApiCall where
  | spreadsheetsGet (fields : String)
  | valuesGet (range : String)
  | valuesAppend (range : String)
deriving DecidableEq, Repr

/-- Whether a request mutates the spreadsheet. -/
def mutatesSpreadsheet : ApiCall → Bool
  | .spreadsheetsGet _ => false
  | .valuesGet _ => false
  | .valuesAppend _ => true

/-- The single metadata `get` of `explore_spreadsheet_metadata`. -/
def explore_spreadsheet_metadata_calls : List ApiCall :=
  [.spreadsheetsGet "spreadsheetId,properties.title,sheets.properties,tables"]

/-- The calls of `explore_values_api`: the sheet-name `get`, then one
`values().get` per sheet title the service returned. -/
def explore_values_api_calls (sheetNames : List String) : List ApiCall :=
  .spreadsheetsGet "sheets.properties.title" ::
  sheetNames.map (fun n => .valuesGet (sq ++ n ++ sq ++ "!A:Z"))

/-- The calls of `explore_tables_api`: one `get` per probed field, then
the named-range `get`. -/
def explore_tables_api_calls : List ApiCall :=
  fields_to_try.map (fun f => .spreadsheetsGet ("spreadsheetId," ++ f)) ++
  [.spreadsheetsGet "sheets.properties.title,namedRanges"]

/-- The single `get` of `explore_data_validation`. -/
def explore_data_validation_calls : List ApiCall :=
  [.spreadsheetsGet "sheets(properties.title,data.rowData.values.dataValidation)"]

/-- `test_write_operation` returns on line 300, before the commented-out
`values().append` code: it issues no request. -/
def test_write_operation_calls : List ApiCall := []

/-- All spreadsheet-API requests of one PoC run, in order, given the
sheet titles the metadata call returned. -/
def poc_api_calls (sheetNames : List String) : List ApiCall :=
  explore_spreadsheet_metadata_calls ++
  explore_values_api_calls sheetNames ++
  explore_tables_api_calls ++
  explore_data_validation_calls ++
  test_write_operation_calls

end GrantTracker

namespace GrantTracker

/-! ## Helper lemmas on the dict embedding -/

/-- Keys after one dict insertion: unchanged for an existing key,
appended otherwise. -/
theorem dictInsert_map_fst (d : List (String × String))
    (kv : String × String) :
    (dictInsert d kv).map Prod.fst =
      if kv.1 ∈ d.map Prod.fst then d.map Prod.fst
      else d.map Prod.fst ++ [kv.1] := by
  unfold dictInsert
  by_cases h : kv.1 ∈ d.map Prod.fst
  · obtain ⟨p, hp, hpe⟩ := List.mem_map.mp h
    have hany : d.any (fun p => p.1 == kv.1) = true :=
      List.any_eq_true.mpr ⟨p, hp, by simp [hpe]⟩
    simp [hany, h]
    intro a b hab
    by_cases hc : a = kv.1 <;> simp [hc]
  · have hany : d.any (fun p => p.1 == kv.1) = false := by
      rw [Bool.eq_false_iff]
      intro hc
      obtain ⟨p, hp, hpe⟩ := List.any_eq_true.mp hc
      exact h (List.mem_map.mpr ⟨p, hp, by simpa using hpe⟩)
    simp [hany, h]

/-- Keys of a dict built by folding insertions: the starting keys plus
the inserted keys. -/
theorem foldl_dictInsert_mem_fst (ps : List (String × String)) :
    ∀ (d : List (String × String)) (k : String),
      k ∈ (ps.foldl dictInsert d).map Prod.fst ↔
        k ∈ d.map Prod.fst ∨ k ∈ ps.map Prod.fst := by
  induction ps with
  | nil => simp
  | cons kv ps ih =>
    intro d k
    rw [List.foldl_cons, ih, dictInsert_map_fst]
    by_cases h : kv.1 ∈ d.map Prod.fst
    · simp only [h, if_true, List.map_cons, List.mem_cons]
      constructor
      · rintro (hk | hk)
        · exact Or.inl hk
        · exact Or.inr (Or.inr hk)
      · rintro (hk | hk | hk)
        · exact Or.inl hk
        · exact Or.inl (hk ▸ h)
        · exact Or.inr hk
    · simp only [h, if_false, List.map_cons, List.mem_cons,
        List.mem_append, List.mem_singleton]
      tauto

/-- The keys of a dict built by folding insertions are distinct. -/
theorem foldl_dictInsert_nodup (ps : List (String × String)) :
    ∀ d : List (String × String), (d.map Prod.fst).Nodup →
      ((ps.foldl dictInsert d).map Prod.fst).Nodup := by
  induction ps with
  | nil => intro d hd; simpa using hd
  | cons kv ps ih =>
    intro d hd
    rw [List.foldl_cons]
    apply ih
    rw [dictInsert_map_fst]
    by_cases h : kv.1 ∈ d.map Prod.fst
    · simpa [h] using hd
    · simp only [h, if_false]
      exact hd.append (List.nodup_singleton _)
        (fun x hx hx1 => by
          rw [List.mem_singleton] at hx1
          exact h (hx1 ▸ hx))

end GrantTracker

namespace GrantTracker

/-- C1: the create script's single values-batchUpdate writes exactly the
three configured header blocks: the Grants sheet's first row is the
14-element `GRANTS_COLUMNS` list in order; the Status sheet's column A is
the header "Status" followed by the 12 `STATUS_VALUES` in order; the Tags
sheet's column A is the header "Name" followed by the 4 `DEFAULT_TAGS` in
order. -/
theorem populate_sheets_writes_configured_headers :
    GRANTS_COLUMNS.length = 14 ∧
    STATUS_VALUES.length = 12 ∧
    DEFAULT_TAGS.length = 4 ∧
    populate_sheets_data.length = 3 ∧
    populate_sheets_data.map ValueRange.range =
      ["Grants!A1", "Status!A1", "Tags!A1"] ∧
    (populate_sheets_data[0]?).map ValueRange.values = some [GRANTS_COLUMNS] ∧
    (populate_sheets_data[1]?).map columnA = some ("Status" :: STATUS_VALUES) ∧
    (populate_sheets_data[2]?).map columnA = some ("Name" :: DEFAULT_TAGS) := by
  refine ⟨rfl, rfl, rfl, rfl, rfl, rfl, ?_, ?_⟩ <;> rfl

/-- C2: whenever the metadata contains a sheet titled "Grants" whose id
the lookup treats as found (nonzero), `add_data_validation` issues exactly
two `setDataValidation` requests with `ONE_OF_RANGE` rules: one on the
Status column (column index 3, rows from index 1, referencing
`Status!$A$2:$A`) and one on the Tags column (column index 9, referencing
`Tags!$A$2:$A`). -/
theorem add_data_validation_issues_dropdown_rules
    (sheets : List SheetProps) (gid : Nat)
    (hfind : findGrantsId sheets = some gid) (hnz : gid ≠ 0) :
    (add_data_validation sheets).requests =
      [⟨{ sheetId := gid, startRowIndex := some 1,
          startColumnIndex := some 3, endColumnIndex := some 4 },
        ⟨"ONE_OF_RANGE", ["=Status!$A$2:$A"], true, false⟩⟩,
       ⟨{ sheetId := gid, startRowIndex := some 1,
          startColumnIndex := some 9, endColumnIndex := some 10 },
        ⟨"ONE_OF_RANGE", ["=Tags!$A$2:$A"], true, false⟩⟩] := by
  simp [add_data_validation, hfind, hnz, statusValidationRequest,
    tagsValidationRequest]

/-- Witness for C2 at concrete metadata in which the Grants sheet has
sheetId 1. -/
theorem add_data_validation_issues_dropdown_rules_witness :
    (add_data_validation [⟨"Grants", 1⟩, ⟨"Status", 2⟩, ⟨"Tags", 3⟩]).requests =
      [⟨{ sheetId := 1, startRowIndex := some 1,
          startColumnIndex := some 3, endColumnIndex := some 4 },
        ⟨"ONE_OF_RANGE", ["=Status!$A$2:$A"], true, false⟩⟩,
       ⟨{ sheetId := 1, startRowIndex := some 1,
          startColumnIndex := some 9, endColumnIndex := some 10 },
        ⟨"ONE_OF_RANGE", ["=Tags!$A$2:$A"], true, false⟩⟩] :=
  add_data_validation_issues_dropdown_rules
    [⟨"Grants", 1⟩, ⟨"Status", 2⟩, ⟨"Tags", 3⟩] 1 (by decide) (by decide)

/-- C3: when the Grants sheet is found but carries sheetId 0, or when no
sheet titled "Grants" exists, `add_data_validation` prints the warning and
returns without issuing any validation request. -/
theorem add_data_validation_not_found_branch
    (sheets1 sheets2 : List SheetProps)
    (h0 : findGrantsId sheets1 = some 0)
    (hnone : findGrantsId sheets2 = none) :
    add_data_validation sheets1 =
      ⟨["Warning: Could not find Grants sheet for validation"], []⟩ ∧
    add_data_validation sheets2 =
      ⟨["Warning: Could not find Grants sheet for validation"], []⟩ := by
  constructor
  · simp [add_data_validation, h0]
  · simp [add_data_validation, hnone]

/-- Witness for C3: a Grants sheet with the service's first-sheet id 0,
and a metadata list without a Grants sheet. -/
theorem add_data_validation_not_found_branch_witness :
    add_data_validation [⟨"Grants", 0⟩, ⟨"Status", 1⟩] =
      ⟨["Warning: Could not find Grants sheet for validation"], []⟩ ∧
    add_data_validation [⟨"Status", 1⟩, ⟨"Tags", 2⟩] =
      ⟨["Warning: Could not find Grants sheet for validation"], []⟩ :=
  add_data_validation_not_found_branch
    [⟨"Grants", 0⟩, ⟨"Status", 1⟩] [⟨"Status", 1⟩, ⟨"Tags", 2⟩]
    (by decide) (by decide)

/-- C9: every validation rule the create script ever requests carries
`strict := false` (the dropdown is advisory, shown via the custom UI, and
the requested rule does not instruct the service to reject other
values). -/
theorem requested_validation_rules_are_not_strict
    (sheets : List SheetProps) (r : SetDataValidationRequest)
    (hr : r ∈ (add_data_validation sheets).requests) :
    r.rule.strict = false ∧ r.rule.showCustomUi = true := by
  unfold add_data_validation at hr
  cases hfind : findGrantsId sheets with
  | none => rw [hfind] at hr; simp at hr
  | some gid =>
    rw [hfind] at hr
    by_cases hg : gid = 0
    · simp [hg] at hr
    · simp [hg, statusValidationRequest, tagsValidationRequest] at hr
      rcases hr with h | h <;> subst h <;> exact ⟨rfl, rfl⟩

/-- Witness for C9 at the Status-column rule of a concrete run. -/
theorem requested_validation_rules_are_not_strict_witness :
    (statusValidationRequest 7).rule.strict = false ∧
    (statusValidationRequest 7).rule.showCustomUi = true :=
  requested_validation_rules_are_not_strict [⟨"Grants", 7⟩]
    (statusValidationRequest 7) (by decide)

/-- C4: a failure raised by `share_with_user` (invoked only for a
non-empty stripped email) is caught in `main` and logged with a
"Could not share:" line, and the run still prints the final "Done!"
message and the spreadsheet URL. -/
theorem share_failure_is_caught_and_run_completes
    (sid rawEmail e : String) (hne : pyStrip rawEmail ≠ "") :
    create_main_epilogue sid rawEmail (.error e) =
      ["", "Could not share: " ++ e, "",
       "Done! Open the spreadsheet to verify:",
       "https://docs.google.com/spreadsheets/d/" ++ sid] := by
  simp [create_main_epilogue, hne]

/-- Witness for C4 at a concrete spreadsheet id, email and exception. -/
theorem share_failure_is_caught_and_run_completes_witness :
    create_main_epilogue "abc123" " user@example.com "
      (.error "HttpError 403") =
      ["", "Could not share: HttpError 403", "",
       "Done! Open the spreadsheet to verify:",
       "https://docs.google.com/spreadsheets/d/abc123"] :=
  share_failure_is_caught_and_run_completes "abc123" " user@example.com "
    "HttpError 403" (by decide)

/-- C5: a missing credential input makes each script exit with status 1
after printing a message, before any remote step runs: the create script
when the keys directory holds no JSON file, the PoC script when the
service-account file is absent, the OAuth path with no saved token when
CLIENT_ID or CLIENT_SECRET is unset, and either import guard when a
required package is missing. -/
theorem missing_credentials_exit_one_before_remote_calls
    (keysDir saPath : String) (dirExists : Bool) (files : List String)
    (hfiles : (if dirExists then files else []) = [])
    (cid cs : Option String)
    (henv : strFalsy cid = true ∨ strFalsy cs = true) :
    get_credentials_create keysDir dirExists files =
      .error ⟨1, ["Error: No service account JSON file found in " ++ keysDir]⟩ ∧
    create_main_steps (get_credentials_create keysDir dirExists files) "" =
      [CreateStep.getCredentials] ∧
    (∃ m : ExitMsg, get_service_account_credentials saPath false = .error m ∧
      m.code = 1 ∧ m.msgs ≠ []) ∧
    poc_main_steps (get_service_account_credentials saPath false) =
      [PocStep.getCredentials] ∧
    get_oauth_credentials none cid cs = .error ⟨1, oauthEnvErrorMsgs⟩ ∧
    create_import_check false =
      .error ⟨1, ["Missing required packages. Run:",
                  "  pip install -r requirements.txt"]⟩ ∧
    poc_import_check false =
      .error ⟨1, ["Missing required packages. Install with:",
                  "  pip install google-auth google-auth-oauthlib google-api-python-client python-dotenv"]⟩ := by
  have h1 : get_credentials_create keysDir dirExists files =
      .error ⟨1, ["Error: No service account JSON file found in " ++ keysDir]⟩ := by
    simp only [get_credentials_create, hfiles]
  refine ⟨h1, by rw [h1]; rfl, ⟨_, rfl, rfl, by simp⟩, rfl, ?_, rfl, rfl⟩
  rcases henv with h | h <;> simp [get_oauth_credentials, h]

/-- Witness for C5: missing keys directory, absent service-account file,
and both OAuth env vars unset. -/
theorem missing_credentials_exit_one_before_remote_calls_witness :
    get_credentials_create "keys" false [] =
      .error ⟨1, ["Error: No service account JSON file found in keys"]⟩ :=
  (missing_credentials_exit_one_before_remote_calls "keys"
    "service-account.json" false [] rfl none none (Or.inl rfl)).1

/-- C6: each script's `main` performs its remote steps in one fixed
order with credentials acquired first: the create script builds the two
clients, creates the spreadsheet, populates headers, formats, adds
validation, and optionally shares; the PoC script builds one client and
then runs the metadata, values, tables and validation explorations. -/
theorem main_runs_fixed_sequence
    (creds : Except ExitMsg String) (f : String) (hok : creds = .ok f)
    (rawEmail : String)
    (pcreds : Except ExitMsg Unit) (hpok : pcreds = .ok ()) :
    create_main_steps creds rawEmail =
      [CreateStep.getCredentials, CreateStep.buildSheetsService,
       CreateStep.buildDriveService, CreateStep.createSpreadsheet,
       CreateStep.populateSheets, CreateStep.formatSheets,
       CreateStep.addDataValidation] ++
      (if pyStrip rawEmail = "" then []
       else [CreateStep.shareWithUser (pyStrip rawEmail)]) ∧
    poc_main_steps pcreds =
      [PocStep.getCredentials, PocStep.buildService,
       PocStep.exploreMetadata, PocStep.exploreValues,
       PocStep.exploreTables, PocStep.exploreValidation,
       PocStep.testWrite] := by
  subst hok; subst hpok; exact ⟨rfl, rfl⟩

/-- Witness for C6 with successful credentials and an empty share
prompt. -/
theorem main_runs_fixed_sequence_witness :
    create_main_steps (.ok "key.json") "" =
      [CreateStep.getCredentials, CreateStep.buildSheetsService,
       CreateStep.buildDriveService, CreateStep.createSpreadsheet,
       CreateStep.populateSheets, CreateStep.formatSheets,
       CreateStep.addDataValidation] ++
      (if pyStrip "" = "" then []
       else [CreateStep.shareWithUser (pyStrip "")]) ∧
    poc_main_steps (.ok ()) =
      [PocStep.getCredentials, PocStep.buildService,
       PocStep.exploreMetadata, PocStep.exploreValues,
       PocStep.exploreTables, PocStep.exploreValidation,
       PocStep.testWrite] :=
  main_runs_fixed_sequence (.ok "key.json") "key.json" rfl ""
    (.ok ()) rfl

/-- C7: the PoC script only reads: whatever sheet titles the service
returns, no request of the run mutates the spreadsheet, and
`test_write_operation` issues no request at all (it returns before its
commented-out append). -/
theorem poc_issues_only_read_calls (sheetNames : List String) :
    ((poc_api_calls sheetNames).all (fun c => !mutatesSpreadsheet c)) = true ∧
    test_write_operation_calls = [] := by
  refine ⟨?_, rfl⟩
  simp [poc_api_calls, explore_spreadsheet_metadata_calls,
    explore_values_api_calls, explore_tables_api_calls,
    explore_data_validation_calls, test_write_operation_calls,
    List.all_append, List.all_map, mutatesSpreadsheet, fields_to_try,
    Function.comp]

/-- C8: in both exploration loops of the PoC script a failure on one
item is caught inside the loop body: the output for a run whose list
contains a failing item is the output for the items before it, then the
item's header and error line, then the unchanged output for the items
after it. -/
theorem exploration_loops_continue_after_error
    (pre post : List (String × Except String (List (List String))))
    (tpre tpost : List (String × Except String TablesGetResp))
    (name fld e : String) :
    explore_values_loop (pre ++ (name, .error e) :: post) =
      explore_values_loop pre ++
      (("\n--- " ++ name ++ " ---") :: ["  Error reading sheet: " ++ e]) ++
      explore_values_loop post ∧
    explore_tables_loop (tpre ++ (fld, .error e) :: tpost) =
      explore_tables_loop tpre ++
      (("\nTrying field: " ++ fld) :: ["  Error: " ++ e]) ++
      explore_tables_loop tpost := by
  constructor <;>
    simp [explore_values_loop, explore_tables_loop, List.flatMap_append,
      List.flatMap_cons]

/-- C10: printing a data row pads a short row with empty strings up to
the header length, leaves a long row unpadded (the Nat-truncated
multiplier contributes nothing) so that zip truncates it to the headers,
and the resulting dict has exactly one entry per distinct header. -/
theorem row_padding_and_dict_per_distinct_header
    (headers row : List String) :
    (row.length ≤ headers.length →
      (padRow headers row).length = headers.length) ∧
    (headers.length ≤ row.length → padRow headers row = row) ∧
    (headers.zip (padRow headers row)).map Prod.fst = headers ∧
    ((rowDict headers row).map Prod.fst).Nodup ∧
    (∀ k, k ∈ (rowDict headers row).map Prod.fst ↔ k ∈ headers) := by
  have hlen : headers.length ≤ (padRow headers row).length := by
    simp [padRow]; omega
  have hzip : (headers.zip (padRow headers row)).map Prod.fst = headers :=
    List.map_fst_zip _ _ hlen
  refine ⟨?_, ?_, hzip, ?_, ?_⟩
  · intro h; simp [padRow]; omega
  · intro h; simp [padRow, Nat.sub_eq_zero_of_le h]
  · simpa [rowDict, dictOfPairs] using
      foldl_dictInsert_nodup (headers.zip (padRow headers row)) []
        (by simp)
  · intro k
    have : rowDict headers row =
        (headers.zip (padRow headers row)).foldl dictInsert [] := rfl
    rw [this, foldl_dictInsert_mem_fst]
    simp [hzip]

/-- Witness for C10: a short row padded to three headers, a long row
left unpadded, and duplicate headers collapsing to one key each. -/
theorem row_padding_and_dict_per_distinct_header_witness :
    (padRow ["A", "B", "C"] ["x"]).length = 3 ∧
    padRow ["A"] ["x", "y"] = ["x", "y"] ∧
    (∀ k, k ∈ (rowDict ["A", "B", "A"] ["x"]).map Prod.fst ↔
      k ∈ ["A", "B", "A"]) :=
  ⟨(row_padding_and_dict_per_distinct_header ["A", "B", "C"] ["x"]).1
      (by decide),
   (row_padding_and_dict_per_distinct_header ["A"] ["x", "y"]).2.1
      (by decide),
   (row_padding_and_dict_per_distinct_header ["A", "B", "A"] ["x"]).2.2.2.2⟩

end GrantTracker
